import Mathlib

/-!
Alka, `alkaLoadIcon` (src/core/private.c).

A shallow embedding of the icon loader of Alka and of the two libraries it
sequences: the stb_image decoder (`stbi_load`, `stbi_image_free`) and the GLFW
window system (`glfwSetWindowIcon`).

The two libraries are not part of `private.c`.  They are parameters of the
embedding: a `PixelDecoder` over an arbitrary decoder state `δ` (the heap the
pixel buffers live in, plus whatever else the decoder keeps) and a
`WindowSystem` over an arbitrary window-system state `ω`.  The types record the
one assumption made about them: the window system may read the decoder's
memory, it cannot change it, and the decoder cannot change the window system.

Every call that leaves `alkaLoadIcon` is appended to a ghost `trace`, which is
what a pair of test doubles would record.
-/

namespace Alka

/-! ## Data model -/

/-- An address. -/
abbrev Ptr := Nat

/-- The null pointer. -/
def NULL : Ptr := 0

/-- One 8-bit channel value. -/
abbrev Byte := Fin 256

/-- A `GLFWwindow *`: the address of an opaque window object. -/
abbrev GLFWwindow := Nat

/-- The C struct `GLFWimage`: `int width; int height; unsigned char *pixels;`. -/
structure GLFWimage where
  width : Int
  height : Int
  pixels : Ptr
deriving DecidableEq, Repr

/-- What one call `stbi_load(filename, &x, &y, channels_in_file, desired_channels)`
yields: the returned pointer, the values left in `*x` and `*y`, and the channel
count of the file, which the decoder stores only when the `channels_in_file`
argument is not `NULL`. -/
structure StbiLoad where
  pixels : Ptr
  x : Int
  y : Int
  channels_in_file : Int
deriving DecidableEq, Repr

/-- The decoder library, over its state `δ`.
`stbi_load d filename channels_in_file desired_channels`: the out-parameters
`x` and `y` are part of the result, `channels_in_file` is the pointer argument. -/
structure PixelDecoder (δ : Type) where
  stbi_load : δ → String → Ptr → Int → StbiLoad × δ
  stbi_image_free : δ → Ptr → δ

/-- The window library, over its state `ω`.
`glfwSetWindowIcon st mem window count images`: `mem` is the decoder state at
the time of the call, through which the pixel pointers of `images` are read. -/
structure WindowSystem (δ ω : Type) where
  glfwSetWindowIcon : ω → δ → GLFWwindow → Int → List GLFWimage → ω

/-- A call made by `alkaLoadIcon`, with its arguments (and, for `stbi_load`,
the pointer it returned). -/
inductive Call where
  | stbi_load (filename : String) (channels_in_file : Ptr) (desired_channels : Int)
      (returned : Ptr)
  | glfwSetWindowIcon (window : GLFWwindow) (count : Int) (images : List GLFWimage)
  | stbi_image_free (retval_from_stbi_load : Ptr)
deriving DecidableEq, Repr

/-- The state `alkaLoadIcon` runs in: the decoder's state, the window system's
state, and the ghost record of the calls made so far. -/
structure World (δ ω : Type) where
  dec : δ
  win : ω
  trace : List Call

/-! ## The function -/

/-- The function `alkaLoadIcon` of private.c, statement by statement:
```
GLFWimage images[1];
images[0].pixels = stbi_load(path, &images[0].width, &images[0].height, 0, 4);
if (images[0].pixels == NULL) return false;
glfwSetWindowIcon(window, 1, images);
stbi_image_free(images[0].pixels);
return true;
```
-/
def alkaLoadIcon {δ ω : Type} (D : PixelDecoder δ) (W : WindowSystem δ ω)
    (s : World δ ω) (window : GLFWwindow) (path : String) : Bool × World δ ω :=
  let r := D.stbi_load s.dec path 0 4
  let image0 : GLFWimage := { width := r.1.x, height := r.1.y, pixels := r.1.pixels }
  let images : List GLFWimage := [image0]
  let s1 : World δ ω :=
    { dec := r.2, win := s.win, trace := s.trace ++ [Call.stbi_load path 0 4 image0.pixels] }
  if image0.pixels = NULL then (false, s1)
  else
    let s2 : World δ ω :=
      { dec := s1.dec
        win := W.glfwSetWindowIcon s1.win s1.dec window 1 images
        trace := s1.trace ++ [Call.glfwSetWindowIcon window 1 images] }
    let s3 : World δ ω :=
      { dec := D.stbi_image_free s2.dec image0.pixels
        win := s2.win
        trace := s2.trace ++ [Call.stbi_image_free image0.pixels] }
    (true, s3)

/-! ## Reading the trace -/

/-- The `stbi_load` calls of a trace: (filename, channels_in_file, desired_channels). -/
def loadCalls : List Call → List (String × Ptr × Int)
  | [] => []
  | Call.stbi_load f c n _ :: t => (f, c, n) :: loadCalls t
  | _ :: t => loadCalls t

/-- The `glfwSetWindowIcon` calls of a trace: (window, count, images). -/
def setIconCalls : List Call → List (GLFWwindow × Int × List GLFWimage)
  | [] => []
  | Call.glfwSetWindowIcon w n imgs :: t => (w, n, imgs) :: setIconCalls t
  | _ :: t => setIconCalls t

/-- The pointers passed to `stbi_image_free` in a trace. -/
def freeCalls : List Call → List Ptr
  | [] => []
  | Call.stbi_image_free p :: t => p :: freeCalls t
  | _ :: t => freeCalls t

/-- What a counting decoder double reports as buffers handed out: the
`stbi_load` calls that returned a buffer. -/
def handedOut : List Call → Nat
  | [] => 0
  | Call.stbi_load _ _ _ p :: t => (if p = NULL then 0 else 1) + handedOut t
  | _ :: t => handedOut t

/-- What a counting decoder double reports as buffers freed: the
`stbi_image_free` calls. -/
def freed (t : List Call) : Nat := (freeCalls t).length

/-- The decoder `D` reporting `c filename` as the channel count of every file,
everything else as `D` does it: the same pixels, sizes and state. -/
def PixelDecoder.withChannelsInFile {δ : Type} (D : PixelDecoder δ) (c : String → Int) :
    PixelDecoder δ where
  stbi_load d filename p n :=
    ({ (D.stbi_load d filename p n).1 with channels_in_file := c filename },
      (D.stbi_load d filename p n).2)
  stbi_image_free := D.stbi_image_free

/-! ## The collaborators as the specification describes them -/

/-- The pixels of an image file, by the channel layout of the file. -/
inductive SourcePixels where
  | grey (px : List Byte)
  | greyAlpha (px : List (Byte × Byte))
  | rgb (px : List (Byte × Byte × Byte))
  | rgba (px : List (Byte × Byte × Byte × Byte))
deriving DecidableEq, Repr

namespace SourcePixels

/-- Number of pixels. -/
def count : SourcePixels → Nat
  | grey px => px.length
  | greyAlpha px => px.length
  | rgb px => px.length
  | rgba px => px.length

/-- Channels per pixel in the file. -/
def channels : SourcePixels → Nat
  | grey _ => 1
  | greyAlpha _ => 2
  | rgb _ => 3
  | rgba _ => 4

/-- Whether the file carries an alpha channel. -/
def hasAlpha : SourcePixels → Bool
  | grey _ => false
  | greyAlpha _ => true
  | rgb _ => false
  | rgba _ => true

/-- The pixels as 4-channel RGBA8, row-major, no padding; a missing alpha
channel is synthesised as 255. -/
def toRGBA : SourcePixels → List Byte
  | grey px => px.flatMap fun g => [g, g, g, 255]
  | greyAlpha px => px.flatMap fun p => [p.1, p.1, p.1, p.2]
  | rgb px => px.flatMap fun p => [p.1, p.2.1, p.2.2, 255]
  | rgba px => px.flatMap fun p => [p.1, p.2.1, p.2.2.1, p.2.2.2]

end SourcePixels

/-- An image file as the decoder understands it. -/
structure SourceImage where
  width : Nat
  height : Nat
  pixels : SourcePixels
deriving DecidableEq, Repr

/-- The heap of the decoder double: the live buffers and the last address
handed out. -/
structure Arena where
  next : Ptr
  live : List (Ptr × List Byte)
deriving DecidableEq, Repr

/-- The bytes of the live buffer at `p`, if there is one. -/
def Arena.bytesAt (a : Arena) (p : Ptr) : Option (List Byte) :=
  a.live.lookup p

/-- Modelled from the spec: the PixelDecoder collaborator (stb_image, which is
not in private.c), as `decode(path, forcedChannels=4) -> (width, height,
pixelBuffer) | failure` with a matching free operation.  `files` is the disk: a
path without an entry, or an entry whose pixel count is not width × height
(corrupt data), fails to decode.  A successful decode with 4 forced channels
hands out a fresh buffer of width × height × 4 bytes with alpha 255 where the
file has none.  The spec describes no other channel request; any other request
fails here. -/
def specDecoder (files : String → Option SourceImage) : PixelDecoder Arena where
  stbi_load a filename _ desired_channels :=
    match files filename with
    | none => ({ pixels := NULL, x := 0, y := 0, channels_in_file := 0 }, a)
    | some src =>
      if desired_channels = 4 ∧ src.pixels.count = src.width * src.height then
        ({ pixels := a.next + 1, x := src.width, y := src.height,
           channels_in_file := src.pixels.channels },
         { next := a.next + 1, live := (a.next + 1, src.pixels.toRGBA) :: a.live })
      else ({ pixels := NULL, x := 0, y := 0, channels_in_file := 0 }, a)
  stbi_image_free a p := { next := a.next, live := a.live.filter fun e => e.1 ≠ p }

/-- An icon image as the spec's data model has it: sizes and the pixel bytes. -/
structure IconImage where
  width : Int
  height : Int
  pixels : List Byte
deriving DecidableEq, Repr

/-- The image behind a `GLFWimage` in memory `mem`; `none` when its pixel
pointer is not a live buffer. -/
def readImage {δ : Type} (bytesAt : δ → Ptr → Option (List Byte)) (mem : δ)
    (g : GLFWimage) : Option IconImage :=
  (bytesAt mem g.pixels).map fun b => { width := g.width, height := g.height, pixels := b }

/-- Modelled from the spec: the WindowSystem collaborator (GLFW, which is not
in private.c), as `setWindowIcon(window, images)`: it reads the first `count`
candidate images during the call and makes them the icon of `window`,
replacing whatever icon the window had; no other window is affected.  The
state is the icon of every window. -/
def specWindowSystem {δ : Type} (bytesAt : δ → Ptr → Option (List Byte)) :
    WindowSystem δ (GLFWwindow → List (Option IconImage)) where
  glfwSetWindowIcon st mem window count images :=
    Function.update st window ((images.take count.toNat).map (readImage bytesAt mem))

/-- What `stbi_load` leaves for the window system to see: `none` when it fails,
otherwise the image behind the result in the decoder state it returns. -/
def decoded {δ : Type} (D : PixelDecoder δ) (bytesAt : δ → Ptr → Option (List Byte))
    (d : δ) (path : String) : Option (Option IconImage) :=
  if (D.stbi_load d path 0 4).1.pixels = NULL then none
  else some (readImage bytesAt (D.stbi_load d path 0 4).2
    { width := (D.stbi_load d path 0 4).1.x, height := (D.stbi_load d path 0 4).1.y,
      pixels := (D.stbi_load d path 0 4).1.pixels })

/-- A decoder is deterministic when what it decodes depends on the path only,
not on the decoder state. -/
def Deterministic {δ : Type} (D : PixelDecoder δ) (bytesAt : δ → Ptr → Option (List Byte)) :
    Prop :=
  ∀ d d' path, decoded D bytesAt d path = decoded D bytesAt d' path

/-! ## A small disk and an empty desktop, for concrete runs -/

/-- Three files: a 1×2 RGB image, a 2×1 greyscale image with alpha, and a file
whose pixel data is short. -/
def demoFiles : String → Option SourceImage := fun path =>
  if path = "icon.png" then
    some { width := 1, height := 2, pixels := SourcePixels.rgb [(10, 20, 30), (40, 50, 60)] }
  else if path = "mask.png" then
    some { width := 2, height := 1, pixels := SourcePixels.greyAlpha [(7, 0), (9, 128)] }
  else if path = "corrupt.png" then
    some { width := 2, height := 2, pixels := SourcePixels.grey [1, 2, 3] }
  else none

/-- No buffer allocated, no icon installed, nothing called yet. -/
def demoWorld : World Arena (GLFWwindow → List (Option IconImage)) :=
  { dec := { next := 0, live := [] }, win := fun _ => [], trace := [] }

/-- The icon loader run on window 7 of the empty desktop, over the small disk. -/
def demoRun (path : String) : Bool × World Arena (GLFWwindow → List (Option IconImage)) :=
  alkaLoadIcon (specDecoder demoFiles) (specWindowSystem Arena.bytesAt) demoWorld 7 path

end Alka

/-! ## Lemmas on traces -/

namespace Alka

variable {δ ω : Type}

theorem loadCalls_append (t u : List Call) : loadCalls (t ++ u) = loadCalls t ++ loadCalls u := by
  induction t with
  | nil => rfl
  | cons c t ih => cases c <;> simp [loadCalls, ih]

theorem setIconCalls_append (t u : List Call) :
    setIconCalls (t ++ u) = setIconCalls t ++ setIconCalls u := by
  induction t with
  | nil => rfl
  | cons c t ih => cases c <;> simp [setIconCalls, ih]

theorem freeCalls_append (t u : List Call) : freeCalls (t ++ u) = freeCalls t ++ freeCalls u := by
  induction t with
  | nil => rfl
  | cons c t ih => cases c <;> simp [freeCalls, ih]

theorem handedOut_append (t u : List Call) : handedOut (t ++ u) = handedOut t + handedOut u := by
  induction t with
  | nil => simp [handedOut]
  | cons c t ih => cases c <;> simp [handedOut, ih, Nat.add_assoc]

/-- The run of `alkaLoadIcon` when the decoder returns `NULL`. -/
theorem alkaLoadIcon_of_null (D : PixelDecoder δ) (W : WindowSystem δ ω) (s : World δ ω)
    (window : GLFWwindow) (path : String)
    (h : (D.stbi_load s.dec path 0 4).1.pixels = NULL) :
    alkaLoadIcon D W s window path =
      (false, { dec := (D.stbi_load s.dec path 0 4).2, win := s.win,
                trace := s.trace ++ [Call.stbi_load path 0 4 NULL] }) := by
  simp [alkaLoadIcon, h]

/-- The run of `alkaLoadIcon` when the decoder returns a buffer. -/
theorem alkaLoadIcon_of_buffer (D : PixelDecoder δ) (W : WindowSystem δ ω) (s : World δ ω)
    (window : GLFWwindow) (path : String)
    (h : (D.stbi_load s.dec path 0 4).1.pixels ≠ NULL) :
    alkaLoadIcon D W s window path =
      (true,
        { dec := D.stbi_image_free (D.stbi_load s.dec path 0 4).2
            (D.stbi_load s.dec path 0 4).1.pixels
          win := W.glfwSetWindowIcon s.win (D.stbi_load s.dec path 0 4).2 window 1
            [{ width := (D.stbi_load s.dec path 0 4).1.x
               height := (D.stbi_load s.dec path 0 4).1.y
               pixels := (D.stbi_load s.dec path 0 4).1.pixels }]
          trace := s.trace ++
            [Call.stbi_load path 0 4 (D.stbi_load s.dec path 0 4).1.pixels,
             Call.glfwSetWindowIcon window 1
               [{ width := (D.stbi_load s.dec path 0 4).1.x
                  height := (D.stbi_load s.dec path 0 4).1.y
                  pixels := (D.stbi_load s.dec path 0 4).1.pixels }],
             Call.stbi_image_free (D.stbi_load s.dec path 0 4).1.pixels] }) := by
  simp [alkaLoadIcon, h]

/-! ## The claims -/

/-- C1: `alkaLoadIcon` returns false exactly when the decoder's load of the
path returns a null pixel buffer, and true exactly when it returns a buffer;
the result being a `Bool`, there is no third outcome. -/
theorem alkaLoadIcon_result_iff_decode (D : PixelDecoder δ) (W : WindowSystem δ ω)
    (s : World δ ω) (window : GLFWwindow) (path : String) :
    ((alkaLoadIcon D W s window path).1 = false ↔
        (D.stbi_load s.dec path 0 4).1.pixels = NULL) ∧
    ((alkaLoadIcon D W s window path).1 = true ↔
        (D.stbi_load s.dec path 0 4).1.pixels ≠ NULL) := by
  by_cases h : (D.stbi_load s.dec path 0 4).1.pixels = NULL
  · rw [alkaLoadIcon_of_null D W s window path h]
    simp [h]
  · rw [alkaLoadIcon_of_buffer D W s window path h]
    simp [h]

/-- C2: when the decode fails, `alkaLoadIcon` returns false, the only call it
makes is the failed `stbi_load`, the window system receives no set-icon call,
and the window-system state after the call is the state before it. -/
theorem alkaLoadIcon_decode_failure_leaves_windows (D : PixelDecoder δ)
    (W : WindowSystem δ ω) (s : World δ ω) (window : GLFWwindow) (path : String)
    (hfail : (D.stbi_load s.dec path 0 4).1.pixels = NULL) :
    (alkaLoadIcon D W s window path).1 = false ∧
    (alkaLoadIcon D W s window path).2.win = s.win ∧
    setIconCalls (alkaLoadIcon D W s window path).2.trace = setIconCalls s.trace ∧
    (alkaLoadIcon D W s window path).2.trace = s.trace ++ [Call.stbi_load path 0 4 NULL] := by
  rw [alkaLoadIcon_of_null D W s window path hfail]
  simp [setIconCalls_append, setIconCalls]

/-- C3: when the decode succeeds with a width, a height and a pixel buffer,
`alkaLoadIcon` returns true and makes exactly one set-icon call: on the given
window, with count 1 and the one image carrying that width, that height and
that buffer, read in the decoder state exactly as the decode left it. -/
theorem alkaLoadIcon_installs_decoded_image (D : PixelDecoder δ) (W : WindowSystem δ ω)
    (s : World δ ω) (window : GLFWwindow) (path : String)
    (hok : (D.stbi_load s.dec path 0 4).1.pixels ≠ NULL) :
    (alkaLoadIcon D W s window path).1 = true ∧
    setIconCalls (alkaLoadIcon D W s window path).2.trace =
      setIconCalls s.trace ++
        [(window, 1, [{ width := (D.stbi_load s.dec path 0 4).1.x
                        height := (D.stbi_load s.dec path 0 4).1.y
                        pixels := (D.stbi_load s.dec path 0 4).1.pixels }])] ∧
    (alkaLoadIcon D W s window path).2.win =
      W.glfwSetWindowIcon s.win (D.stbi_load s.dec path 0 4).2 window 1
        [{ width := (D.stbi_load s.dec path 0 4).1.x
           height := (D.stbi_load s.dec path 0 4).1.y
           pixels := (D.stbi_load s.dec path 0 4).1.pixels }] := by
  rw [alkaLoadIcon_of_buffer D W s window path hok]
  simp [setIconCalls_append, setIconCalls]

/-- C4: `alkaLoadIcon` calls the decoder exactly once, with the caller's path,
a null `channels_in_file` pointer (the file's channel count is not asked for)
and 4 desired channels; and the run is the same whatever channel count the
decoder would report for the file. -/
theorem alkaLoadIcon_one_load_forcing_four_channels (D : PixelDecoder δ)
    (W : WindowSystem δ ω) (s : World δ ω) (window : GLFWwindow) (path : String)
    (c : String → Int) :
    loadCalls (alkaLoadIcon D W s window path).2.trace =
      loadCalls s.trace ++ [(path, NULL, 4)] ∧
    alkaLoadIcon (D.withChannelsInFile c) W s window path = alkaLoadIcon D W s window path := by
  constructor
  · by_cases h : (D.stbi_load s.dec path 0 4).1.pixels = NULL
    · rw [alkaLoadIcon_of_null D W s window path h]
      simp [loadCalls_append, loadCalls, NULL]
    · rw [alkaLoadIcon_of_buffer D W s window path h]
      simp [loadCalls_append, loadCalls, NULL]
  · simp [alkaLoadIcon, PixelDecoder.withChannelsInFile]

/-- C5: when the decode succeeds, the calls of `alkaLoadIcon` are, in order,
the load, the set-icon call and one `stbi_image_free` of the pointer the load
returned; the window system reads the decoder state of before that free, and
the free is applied to the decoder state afterwards. -/
theorem alkaLoadIcon_frees_after_install (D : PixelDecoder δ) (W : WindowSystem δ ω)
    (s : World δ ω) (window : GLFWwindow) (path : String)
    (hok : (D.stbi_load s.dec path 0 4).1.pixels ≠ NULL) :
    (alkaLoadIcon D W s window path).2.trace =
      s.trace ++
        [Call.stbi_load path 0 4 (D.stbi_load s.dec path 0 4).1.pixels,
         Call.glfwSetWindowIcon window 1
           [{ width := (D.stbi_load s.dec path 0 4).1.x
              height := (D.stbi_load s.dec path 0 4).1.y
              pixels := (D.stbi_load s.dec path 0 4).1.pixels }],
         Call.stbi_image_free (D.stbi_load s.dec path 0 4).1.pixels] ∧
    freeCalls (alkaLoadIcon D W s window path).2.trace =
      freeCalls s.trace ++ [(D.stbi_load s.dec path 0 4).1.pixels] ∧
    (alkaLoadIcon D W s window path).2.win =
      W.glfwSetWindowIcon s.win (D.stbi_load s.dec path 0 4).2 window 1
        [{ width := (D.stbi_load s.dec path 0 4).1.x
           height := (D.stbi_load s.dec path 0 4).1.y
           pixels := (D.stbi_load s.dec path 0 4).1.pixels }] ∧
    (alkaLoadIcon D W s window path).2.dec =
      D.stbi_image_free (D.stbi_load s.dec path 0 4).2
        (D.stbi_load s.dec path 0 4).1.pixels := by
  rw [alkaLoadIcon_of_buffer D W s window path hok]
  simp [freeCalls_append, freeCalls]

/-- C6: over one call of `alkaLoadIcon`, the count of buffers handed out by
the decoder and the count of buffers freed grow by the same amount: by one
when the call returns true, by nothing when it returns false.  Counts that are
equal before the call are equal when it returns. -/
theorem alkaLoadIcon_balances_buffers (D : PixelDecoder δ) (W : WindowSystem δ ω)
    (s : World δ ω) (window : GLFWwindow) (path : String) :
    handedOut (alkaLoadIcon D W s window path).2.trace =
      handedOut s.trace + (if (alkaLoadIcon D W s window path).1 = true then 1 else 0) ∧
    freed (alkaLoadIcon D W s window path).2.trace =
      freed s.trace + (if (alkaLoadIcon D W s window path).1 = true then 1 else 0) := by
  by_cases h : (D.stbi_load s.dec path 0 4).1.pixels = NULL
  · rw [alkaLoadIcon_of_null D W s window path h]
    simp [handedOut_append, freeCalls_append, handedOut, freed, freeCalls]
  · rw [alkaLoadIcon_of_buffer D W s window path h]
    simp [handedOut_append, freeCalls_append, handedOut, freed, freeCalls, h]

/-- C8: the window system has no say in the outcome.  For any two window
systems, window states and window handles, run from the same decoder state on
the same path: the two return values are equal, the two final decoder states
are equal and the same buffers are freed; the return value is true exactly
when the decode gave a buffer, and that buffer is then the one freed. -/
theorem alkaLoadIcon_outcome_ignores_window_system {ω₁ ω₂ : Type} (D : PixelDecoder δ)
    (W₁ : WindowSystem δ ω₁) (W₂ : WindowSystem δ ω₂) (d : δ) (win₁ : ω₁) (win₂ : ω₂)
    (t : List Call) (window₁ window₂ : GLFWwindow) (path : String) :
    (alkaLoadIcon D W₁ ⟨d, win₁, t⟩ window₁ path).1 =
      (alkaLoadIcon D W₂ ⟨d, win₂, t⟩ window₂ path).1 ∧
    (alkaLoadIcon D W₁ ⟨d, win₁, t⟩ window₁ path).2.dec =
      (alkaLoadIcon D W₂ ⟨d, win₂, t⟩ window₂ path).2.dec ∧
    freeCalls (alkaLoadIcon D W₁ ⟨d, win₁, t⟩ window₁ path).2.trace =
      freeCalls (alkaLoadIcon D W₂ ⟨d, win₂, t⟩ window₂ path).2.trace ∧
    (alkaLoadIcon D W₁ ⟨d, win₁, t⟩ window₁ path).1 =
      decide ((D.stbi_load d path 0 4).1.pixels ≠ NULL) ∧
    freeCalls (alkaLoadIcon D W₁ ⟨d, win₁, t⟩ window₁ path).2.trace =
      freeCalls t ++
        (if (D.stbi_load d path 0 4).1.pixels = NULL then []
         else [(D.stbi_load d path 0 4).1.pixels]) := by
  by_cases h : (D.stbi_load d path 0 4).1.pixels = NULL
  · rw [alkaLoadIcon_of_null D W₁ ⟨d, win₁, t⟩ window₁ path h,
      alkaLoadIcon_of_null D W₂ ⟨d, win₂, t⟩ window₂ path h]
    simp [freeCalls_append, freeCalls, h]
  · rw [alkaLoadIcon_of_buffer D W₁ ⟨d, win₁, t⟩ window₁ path h,
      alkaLoadIcon_of_buffer D W₂ ⟨d, win₂, t⟩ window₂ path h]
    simp [freeCalls_append, freeCalls, h]

/-! ## The decoder and window system of the specification -/

theorem length_flatMap_quad {α : Type} (f : α → List Byte) (hf : ∀ a, (f a).length = 4)
    (l : List α) : (l.flatMap f).length = 4 * l.length := by
  induction l with
  | nil => rfl
  | cons a l ih => simp [List.flatMap_cons, hf, ih]; omega

theorem getElem?_flatMap_quad {α : Type} (f : α → List Byte) (hf : ∀ a, (f a).length = 4)
    (v : Byte) (hv : ∀ a, (f a)[3]? = some v) (l : List α) (k : Nat) (hk : k < l.length) :
    (l.flatMap f)[4 * k + 3]? = some v := by
  induction l generalizing k with
  | nil => simp at hk
  | cons a l ih =>
    rw [List.flatMap_cons]
    cases k with
    | zero =>
      rw [List.getElem?_append_left (by simp [hf])]
      exact hv a
    | succ k =>
      rw [List.getElem?_append_right (by simp [hf]; omega)]
      have hidx : 4 * (k + 1) + 3 - (f a).length = 4 * k + 3 := by rw [hf]; omega
      rw [hidx]
      exact ih k (by simpa using hk)

theorem length_toRGBA (px : SourcePixels) : px.toRGBA.length = 4 * px.count := by
  cases px <;>
    · simp only [SourcePixels.toRGBA, SourcePixels.count]
      apply length_flatMap_quad
      intro a
      rfl

theorem alpha_toRGBA (px : SourcePixels) (hpx : px.hasAlpha = false) (k : Nat)
    (hk : k < px.count) : px.toRGBA[4 * k + 3]? = some 255 := by
  cases px with
  | grey l =>
    simp only [SourcePixels.toRGBA]
    apply getElem?_flatMap_quad
    · intro a; rfl
    · intro a; rfl
    · exact hk
  | greyAlpha l => simp [SourcePixels.hasAlpha] at hpx
  | rgb l =>
    simp only [SourcePixels.toRGBA]
    apply getElem?_flatMap_quad
    · intro a; rfl
    · intro a; rfl
    · exact hk
  | rgba l => simp [SourcePixels.hasAlpha] at hpx

/-- A successful `stbi_load` of the specification's decoder: the file exists,
its pixel count matches its sizes, and the result is the fresh RGBA buffer. -/
theorem specDecoder_load_of_buffer (files : String → Option SourceImage) (a : Arena)
    (path : String) (hok : ((specDecoder files).stbi_load a path 0 4).1.pixels ≠ NULL) :
    ∃ src, files path = some src ∧ src.pixels.count = src.width * src.height ∧
      (specDecoder files).stbi_load a path 0 4 =
        ({ pixels := a.next + 1, x := src.width, y := src.height,
           channels_in_file := src.pixels.channels },
         { next := a.next + 1, live := (a.next + 1, src.pixels.toRGBA) :: a.live }) := by
  cases hf : files path with
  | none => simp [specDecoder, hf] at hok
  | some src =>
    by_cases hc : src.pixels.count = src.width * src.height
    · exact ⟨src, rfl, hc, by simp [specDecoder, hf, hc]⟩
    · simp [specDecoder, hf, hc] at hok

/-- What the specification's decoder leaves to see depends on the file only. -/
theorem decoded_specDecoder (files : String → Option SourceImage) (a : Arena) (path : String) :
    decoded (specDecoder files) Arena.bytesAt a path =
      match files path with
      | none => none
      | some src =>
        if src.pixels.count = src.width * src.height then
          some (some { width := src.width, height := src.height, pixels := src.pixels.toRGBA })
        else none := by
  cases hf : files path with
  | none => simp [decoded, specDecoder, hf]
  | some src =>
    by_cases hc : src.pixels.count = src.width * src.height
    · simp [decoded, specDecoder, hf, hc, NULL, readImage, Arena.bytesAt, List.lookup]
    · simp [decoded, specDecoder, hf, hc]

theorem specDecoder_deterministic (files : String → Option SourceImage) :
    Deterministic (specDecoder files) Arena.bytesAt := by
  intro d d' path
  rw [decoded_specDecoder, decoded_specDecoder]

/-- The run of `alkaLoadIcon` on the specification's window system, read off
what the decoder leaves to see. -/
theorem alkaLoadIcon_specWindowSystem (D : PixelDecoder δ)
    (bytesAt : δ → Ptr → Option (List Byte)) (s : World δ (GLFWwindow → List (Option IconImage)))
    (window : GLFWwindow) (path : String) :
    (alkaLoadIcon D (specWindowSystem bytesAt) s window path).1 =
        (decoded D bytesAt s.dec path).isSome ∧
    (alkaLoadIcon D (specWindowSystem bytesAt) s window path).2.win =
        match decoded D bytesAt s.dec path with
        | none => s.win
        | some img => Function.update s.win window [img] := by
  by_cases h : (D.stbi_load s.dec path 0 4).1.pixels = NULL
  · rw [alkaLoadIcon_of_null D _ s window path h]
    simp [decoded, h]
  · rw [alkaLoadIcon_of_buffer D _ s window path h]
    simp [decoded, h, specWindowSystem]

/-- C7: with the decoder and the window system of the specification, a path
that decodes successfully puts on the window exactly one image, whose width and
height are not negative, whose pixel buffer has width × height × 4 bytes, and
whose every fourth byte (the alpha of pixel k) is 255 when the file has no
alpha channel. -/
theorem alkaLoadIcon_hands_over_rgba8_image (files : String → Option SourceImage)
    (s : World Arena (GLFWwindow → List (Option IconImage))) (window : GLFWwindow)
    (path : String)
    (hok : ((specDecoder files).stbi_load s.dec path 0 4).1.pixels ≠ NULL) :
    ∃ src img, files path = some src ∧
      (alkaLoadIcon (specDecoder files) (specWindowSystem Arena.bytesAt) s window path).2.win
          window = [some img] ∧
      0 ≤ img.width ∧ 0 ≤ img.height ∧
      (img.pixels.length : Int) = img.width * img.height * 4 ∧
      (src.pixels.hasAlpha = false →
        ∀ k : Nat, (k : Int) < img.width * img.height → img.pixels[4 * k + 3]? = some 255) := by
  obtain ⟨src, hsrc, hcount, hload⟩ := specDecoder_load_of_buffer files s.dec path hok
  refine ⟨src, { width := src.width, height := src.height, pixels := src.pixels.toRGBA },
    hsrc, ?_, ?_, ?_, ?_, ?_⟩
  · rw [(alkaLoadIcon_specWindowSystem (specDecoder files) Arena.bytesAt s window path).2,
      decoded_specDecoder, hsrc]
    simp [hcount]
  · exact Int.natCast_nonneg _
  · exact Int.natCast_nonneg _
  · simp only [length_toRGBA, hcount]
    push_cast
    ring
  · intro hna k hk
    apply alpha_toRGBA src.pixels hna k
    rw [hcount]
    have hk' : (k : Int) < (src.width : Int) * (src.height : Int) := hk
    exact_mod_cast hk'

/-- C9: for a window system whose set-icon call leaves the icon of every
window other than its target as it was, `alkaLoadIcon` on `window` leaves the
icon of every other window as it was, whether the decode succeeds or fails. -/
theorem alkaLoadIcon_leaves_other_windows {ι : Type} (D : PixelDecoder δ)
    (W : WindowSystem δ ω) (icon : ω → GLFWwindow → ι)
    (hframe : ∀ st mem w n imgs w', w' ≠ w →
      icon (W.glfwSetWindowIcon st mem w n imgs) w' = icon st w')
    (s : World δ ω) (window : GLFWwindow) (path : String) (w' : GLFWwindow)
    (hne : w' ≠ window) :
    icon (alkaLoadIcon D W s window path).2.win w' = icon s.win w' := by
  by_cases h : (D.stbi_load s.dec path 0 4).1.pixels = NULL
  · rw [alkaLoadIcon_of_null D W s window path h]
  · rw [alkaLoadIcon_of_buffer D W s window path h]
    exact hframe _ _ _ _ _ _ hne

/-- C10: with a deterministic decoder and the icon-replacing window system of
the specification, (1) a second `alkaLoadIcon` of the same path on the same
window returns what the first returned and leaves the window-system state the
first left; (2) loading `a` and then, successfully, `b` leaves on the window
the icon that loading `b` alone leaves; (3) the icon left by a successful load
is the same from any other starting state `s'`, whatever icon was there. -/
theorem alkaLoadIcon_overwrites_icon (D : PixelDecoder δ)
    (bytesAt : δ → Ptr → Option (List Byte)) (hdet : Deterministic D bytesAt)
    (s s' : World δ (GLFWwindow → List (Option IconImage))) (w : GLFWwindow)
    (a b : String) :
    ((alkaLoadIcon D (specWindowSystem bytesAt)
        (alkaLoadIcon D (specWindowSystem bytesAt) s w b).2 w b).1 =
      (alkaLoadIcon D (specWindowSystem bytesAt) s w b).1 ∧
     (alkaLoadIcon D (specWindowSystem bytesAt)
        (alkaLoadIcon D (specWindowSystem bytesAt) s w b).2 w b).2.win =
      (alkaLoadIcon D (specWindowSystem bytesAt) s w b).2.win) ∧
    ((alkaLoadIcon D (specWindowSystem bytesAt)
        (alkaLoadIcon D (specWindowSystem bytesAt) s w a).2 w b).1 = true →
      (alkaLoadIcon D (specWindowSystem bytesAt)
        (alkaLoadIcon D (specWindowSystem bytesAt) s w a).2 w b).2.win w =
      (alkaLoadIcon D (specWindowSystem bytesAt) s w b).2.win w) ∧
    ((alkaLoadIcon D (specWindowSystem bytesAt) s w b).1 = true →
      (alkaLoadIcon D (specWindowSystem bytesAt) s w b).2.win w =
      (alkaLoadIcon D (specWindowSystem bytesAt) s' w b).2.win w) := by
  have hrun := fun (t : World δ (GLFWwindow → List (Option IconImage))) (p : String) =>
    alkaLoadIcon_specWindowSystem D bytesAt t w p
  refine ⟨⟨?_, ?_⟩, ?_, ?_⟩
  · rw [(hrun _ b).1, (hrun s b).1, hdet _ s.dec b]
  · rw [(hrun _ b).2, (hrun s b).2, hdet _ s.dec b]
    cases decoded D bytesAt s.dec b with
    | none => rfl
    | some img => simp
  · rw [(hrun _ b).1, (hrun _ b).2, (hrun s b).2, hdet _ s.dec b]
    cases decoded D bytesAt s.dec b with
    | none => simp
    | some img => simp
  · rw [(hrun s b).1, (hrun s b).2, (hrun s' b).2, hdet s'.dec s.dec b]
    cases decoded D bytesAt s.dec b with
    | none => simp
    | some img => simp

/-! ## Concrete runs -/

/-- A missing file: the load fails, the call returns false, no set-icon
call is recorded and window 7 keeps having no icon. -/
theorem alkaLoadIcon_decode_failure_leaves_windows_witness :
    ((specDecoder demoFiles).stbi_load demoWorld.dec "/nonexistent/path.png" 0 4).1.pixels
        = NULL ∧
    (demoRun "/nonexistent/path.png").1 = false ∧
    (demoRun "/nonexistent/path.png").2.win = demoWorld.win ∧
    setIconCalls (demoRun "/nonexistent/path.png").2.trace = [] ∧
    (demoRun "/nonexistent/path.png").2.trace =
      [Call.stbi_load "/nonexistent/path.png" 0 4 NULL] :=
  ⟨by decide,
   alkaLoadIcon_decode_failure_leaves_windows (specDecoder demoFiles)
     (specWindowSystem Arena.bytesAt) demoWorld 7 "/nonexistent/path.png" (by decide)⟩

/-- The 1×2 RGB file: the call returns true and the one set-icon call is
on window 7 with count 1 and the image of width 1, height 2 at the buffer the
decoder returned. -/
theorem alkaLoadIcon_installs_decoded_image_witness :
    ((specDecoder demoFiles).stbi_load demoWorld.dec "icon.png" 0 4).1.pixels ≠ NULL ∧
    (demoRun "icon.png").1 = true ∧
    setIconCalls (demoRun "icon.png").2.trace =
      [(7, 1, [{ width := 1, height := 2, pixels := 1 }])] ∧
    (demoRun "icon.png").2.win 7 =
      [some { width := 1, height := 2, pixels := [10, 20, 30, 255, 40, 50, 60, 255] }] :=
  ⟨by decide,
   (alkaLoadIcon_installs_decoded_image (specDecoder demoFiles)
     (specWindowSystem Arena.bytesAt) demoWorld 7 "icon.png" (by decide)).1,
   (alkaLoadIcon_installs_decoded_image (specDecoder demoFiles)
     (specWindowSystem Arena.bytesAt) demoWorld 7 "icon.png" (by decide)).2.1,
   by decide⟩

/-- The 1×2 RGB file again: load, set-icon, free of buffer 1, in this order;
the buffer is live when the window system reads it and gone afterwards. -/
theorem alkaLoadIcon_frees_after_install_witness :
    ((specDecoder demoFiles).stbi_load demoWorld.dec "icon.png" 0 4).1.pixels ≠ NULL ∧
    (demoRun "icon.png").2.trace =
      [Call.stbi_load "icon.png" 0 4 1,
       Call.glfwSetWindowIcon 7 1 [{ width := 1, height := 2, pixels := 1 }],
       Call.stbi_image_free 1] ∧
    (((specDecoder demoFiles).stbi_load demoWorld.dec "icon.png" 0 4).2.bytesAt 1).isSome
      = true ∧
    (demoRun "icon.png").2.dec.bytesAt 1 = none :=
  ⟨by decide,
   (alkaLoadIcon_frees_after_install (specDecoder demoFiles)
     (specWindowSystem Arena.bytesAt) demoWorld 7 "icon.png" (by decide)).1,
   by decide, by decide⟩

/-- The image installed from the 1×2 RGB file, which has no alpha channel. -/
theorem alkaLoadIcon_hands_over_rgba8_image_witness :
    ((specDecoder demoFiles).stbi_load demoWorld.dec "icon.png" 0 4).1.pixels ≠ NULL ∧
    ∃ src img, demoFiles "icon.png" = some src ∧
      (demoRun "icon.png").2.win 7 = [some img] ∧
      0 ≤ img.width ∧ 0 ≤ img.height ∧
      (img.pixels.length : Int) = img.width * img.height * 4 ∧
      (src.pixels.hasAlpha = false →
        ∀ k : Nat, (k : Int) < img.width * img.height → img.pixels[4 * k + 3]? = some 255) :=
  ⟨by decide,
   alkaLoadIcon_hands_over_rgba8_image demoFiles demoWorld 7 "icon.png" (by decide)⟩

/-- On the specification's window system, loading an icon on window 7
leaves window 8 as it was. -/
theorem alkaLoadIcon_leaves_other_windows_witness :
    (8 : GLFWwindow) ≠ 7 ∧ (demoRun "icon.png").2.win 8 = demoWorld.win 8 :=
  ⟨by decide,
   alkaLoadIcon_leaves_other_windows (specDecoder demoFiles)
     (specWindowSystem Arena.bytesAt) (fun st w => st w)
     (by
       intro st mem w n imgs w' hne
       simp [specWindowSystem, Function.update, hne])
     demoWorld 7 "icon.png" 8 (by decide)⟩

/-- The specification's decoder is deterministic, and loading
"icon.png" twice on window 7 is loading it once. -/
theorem alkaLoadIcon_overwrites_icon_witness :
    Deterministic (specDecoder demoFiles) Arena.bytesAt ∧
    (alkaLoadIcon (specDecoder demoFiles) (specWindowSystem Arena.bytesAt)
        (demoRun "icon.png").2 7 "icon.png").1 = (demoRun "icon.png").1 ∧
    (alkaLoadIcon (specDecoder demoFiles) (specWindowSystem Arena.bytesAt)
        (demoRun "icon.png").2 7 "icon.png").2.win = (demoRun "icon.png").2.win :=
  ⟨specDecoder_deterministic demoFiles,
   (alkaLoadIcon_overwrites_icon (specDecoder demoFiles) Arena.bytesAt
     (specDecoder_deterministic demoFiles) demoWorld demoWorld 7 "mask.png" "icon.png").1⟩

end Alka
